import Mathlib

/-!
Verification of the `codex_adventure` game engine
(`src/codex_adventure/game.py`, class `Game`).

The mutable attributes of `Game` become the fields of `GameState`.
Randomness is injected in the source (`RNGProtocol.randint`); here a call
`self._randint(a, b)` consumes the head of an explicit stream of draws and
is defined only when that head lies in the requested interval `[a, b]`
(the RNG contract `a <= N <= b`).  Every engine method becomes a function
from the state and the draw stream to an `Option` of (return value, new
state, remaining stream); `none` means the stream could not supply the
draws the method requests.  Health values live in `Int`: the source never
clamps them below zero.
-/

namespace CodexAdventure

/-- The mutable state of `Game` (attributes set in `Game.reset`). -/
structure GameState where
  player_hp : Int
  player_name : String
  has_key : Bool
  has_potion : Bool
  game_over : Bool
  guardian_hp : Int
deriving Repr, DecidableEq

/-- The initial constants assigned by `Game.reset`. -/
def resetState : GameState :=
  { player_hp := 100
    player_name := ""
    has_key := false
    has_potion := true
    game_over := false
    guardian_hp := 50 }

/-- `Game.reset`: overwrite every field with its initial constant,
regardless of the prior state. -/
def reset (_s : GameState) : GameState := resetState

/-- `Game._randint(a, b)`: consume the next scripted draw; defined only
when the draw honours the RNG contract `a <= N <= b`. -/
def randint (a b : Int) (draws : List Int) : Option (Int × List Int) :=
  match draws with
  | [] => none
  | x :: rest => if a ≤ x ∧ x ≤ b then some (x, rest) else none

/-- `Game.use_potion`. -/
def use_potion (s : GameState) (draws : List Int) :
    Option ((Bool × Int) × GameState × List Int) :=
  if s.has_potion = false then
    some ((false, 0), s, draws)
  else
    match randint 20 40 draws with
    | none => none
    | some (heal_amount, rest) =>
      let hp := s.player_hp + heal_amount
      let hp := if hp > 100 then (100 : Int) else hp
      some ((true, heal_amount), { s with player_hp := hp, has_potion := false }, rest)

/-- `Game.enter_eastern_path`. -/
def enter_eastern_path (s : GameState) (draws : List Int) :
    Option ((String × Int) × GameState × List Int) :=
  match randint 1 100 draws with
  | none => none
  | some (event_chance, rest) =>
    if event_chance > 40 then
      match randint 15 30 rest with
      | none => none
      | some (damage, rest2) =>
        some (("trap", damage), { s with player_hp := s.player_hp - damage }, rest2)
    else
      if s.has_key = false then
        match randint 1 3 rest with
        | none => none
        | some (roll, rest2) =>
          if roll = 1 then
            some (("safe_key_found", 0), { s with has_key := true }, rest2)
          else
            some (("safe", 0), s, rest2)
      else
        some (("safe", 0), s, rest)

/-- `Game.investigate_cave` (no random draws in the source). -/
def investigate_cave (s : GameState) : String × GameState :=
  if s.has_key = false then
    ("no_key", s)
  else
    if s.has_potion = false then
      ("chest_potion", { s with has_potion := true })
    else
      ("chest_empty", s)

/-- `Game.enter_western_path`.  The source evaluates
`self._randint(1, 4) == 1 and not self.has_key`, so the draw is consumed
before `has_key` is consulted, on every call. -/
def enter_western_path (s : GameState) (draws : List Int) :
    Option ((String × Bool) × GameState × List Int) :=
  match randint 1 4 draws with
  | none => none
  | some (roll, rest) =>
    if roll = 1 ∧ s.has_key = false then
      some (("western", true), { s with has_key := true }, rest)
    else
      some (("western", false), s, rest)

/-- `Game.drink_from_stream`. -/
def drink_from_stream (s : GameState) (draws : List Int) :
    Option (Int × GameState × List Int) :=
  match randint 5 15 draws with
  | none => none
  | some (healing, rest) =>
    some (healing, { s with player_hp := s.player_hp + healing }, rest)

/-- `Game.battle_guardian_once`. -/
def battle_guardian_once (s : GameState) (draws : List Int) :
    Option ((String × Int × Int) × GameState × List Int) :=
  match randint 10 25 draws with
  | none => none
  | some (player_attack, rest) =>
    let s1 := { s with guardian_hp := s.guardian_hp - player_attack }
    if s1.guardian_hp ≤ 0 then
      some (("guardian_defeated", player_attack, 0), s1, rest)
    else
      match randint 10 20 rest with
      | none => none
      | some (guardian_attack, rest2) =>
        some (("guardian_retaliates", player_attack, guardian_attack),
              { s1 with player_hp := s1.player_hp - guardian_attack }, rest2)

/-- `Game.attempt_sneak`. -/
def attempt_sneak (s : GameState) (draws : List Int) :
    Option ((Bool × Int) × GameState × List Int) :=
  match randint 1 100 draws with
  | none => none
  | some (sneak_chance, rest) =>
    if sneak_chance > 70 then
      some ((true, 0), s, rest)
    else
      match randint 20 35 rest with
      | none => none
      | some (damage, rest2) =>
        some ((false, damage), { s with player_hp := s.player_hp - damage }, rest2)

/-- The `if self.player_hp <= 0: self.game_over = True` check that
`Game.run_cli` runs at the end of a battle iteration. -/
def death_check (s : GameState) : GameState :=
  if s.player_hp ≤ 0 then { s with game_over := true } else s

/-- One iteration of the battle loop in `Game.run_cli`, given the player's
`battle_choice`.  On `"1"` the guardian is attacked and `game_over` is set
on `"guardian_defeated"`; on `"2"` a sneak is attempted and `game_over` is
set on success (both branches `break` before the death check); on `"3"`
the potion is used when held; any other choice costs a `[5, 15]` hit. -/
def battle_round (choice : String) (s : GameState) (draws : List Int) :
    Option (GameState × List Int) :=
  if choice = "1" then
    match battle_guardian_once s draws with
    | none => none
    | some ((result, _, _), s1, rest) =>
      if result = "guardian_defeated" then
        some ({ s1 with game_over := true }, rest)
      else
        some (death_check s1, rest)
  else if choice = "2" then
    match attempt_sneak s draws with
    | none => none
    | some ((success, _), s1, rest) =>
      if success then
        some ({ s1 with game_over := true }, rest)
      else
        some (death_check s1, rest)
  else if choice = "3" then
    if s.has_potion then
      match use_potion s draws with
      | none => none
      | some (_, s1, rest) => some (death_check s1, rest)
    else
      some (death_check s, draws)
  else
    match randint 5 15 draws with
    | none => none
    | some (guardian_attack, rest) =>
      some (death_check { s with player_hp := s.player_hp - guardian_attack }, rest)

/-- C9: for every prior state, `reset` restores exactly
(playerHP=100, playerName="", hasKey=false, hasPotion=true,
gameOver=false, guardianHP=50), consuming no random draws. -/
theorem reset_restores_initial_state (s : GameState) :
    reset s =
      { player_hp := 100, player_name := "", has_key := false,
        has_potion := true, game_over := false, guardian_hp := 50 } := rfl

/-- C6: `drink_from_stream` adds the drawn healing from [5, 15] to
`player_hp` unconditionally, with no cap at 100, and returns the draw;
the resulting HP is exactly the old HP plus the draw. -/
theorem drink_from_stream_uncapped (s : GameState) (d : Int) (rest : List Int)
    (h1 : 5 ≤ d) (h2 : d ≤ 15) :
    drink_from_stream s (d :: rest) =
      some (d, { s with player_hp := s.player_hp + d }, rest) := by
  simp [drink_from_stream, randint, h1, h2]

/-- Witness for C6: starting HP 95 with draw 10 ends at HP 105, above 100. -/
theorem drink_from_stream_uncapped_witness :
    drink_from_stream { resetState with player_hp := 95 } [10] =
      some (10, { resetState with player_hp := 105 }, []) ∧ (105 : Int) > 100 := by
  refine ⟨?_, by decide⟩
  rw [drink_from_stream_uncapped { resetState with player_hp := 95 } 10 []
    (by decide) (by decide)]
  decide

/-- C7: `investigate_cave` takes no draw stream at all; without the key it
returns "no_key" with the state (hence the key flag) unchanged; with the
key and no potion it grants the potion and returns "chest_potion"; with
the key and a potion it returns "chest_empty" unchanged; the key is never
consumed. -/
theorem investigate_cave_spec (s : GameState) :
    (s.has_key = false → investigate_cave s = ("no_key", s)) ∧
    (s.has_key = true → s.has_potion = false →
        investigate_cave s = ("chest_potion", { s with has_potion := true })) ∧
    (s.has_key = true → s.has_potion = true →
        investigate_cave s = ("chest_empty", s)) ∧
    (investigate_cave s).2.has_key = s.has_key := by
  cases hk : s.has_key <;> cases hp : s.has_potion <;>
    simp [investigate_cave, hk, hp]

/-- Witness for C7: the three branches at concrete states. -/
theorem investigate_cave_spec_witness :
    investigate_cave resetState = ("no_key", resetState) ∧
    investigate_cave { resetState with has_key := true, has_potion := false } =
      ("chest_potion", { resetState with has_key := true, has_potion := true }) ∧
    investigate_cave { resetState with has_key := true } =
      ("chest_empty", { resetState with has_key := true }) := by
  refine ⟨(investigate_cave_spec resetState).1 (by decide), ?_, ?_⟩
  · rw [(investigate_cave_spec _).2.1 (by decide) (by decide)]
  · exact (investigate_cave_spec { resetState with has_key := true }).2.2.1
      (by decide) (by decide)

/-- C2: `battle_guardian_once` first subtracts the [10, 25] draw from
`guardian_hp`; if the result is ≤ 0 it returns
("guardian_defeated", draw, 0) and consumes no second draw and leaves
`player_hp` untouched; otherwise it subtracts a second [10, 20] draw from
`player_hp` and returns ("guardian_retaliates", draw, second draw). -/
theorem battle_guardian_once_spec (s : GameState) (a b : Int) (rest : List Int)
    (ha1 : 10 ≤ a) (ha2 : a ≤ 25) :
    (s.guardian_hp - a ≤ 0 →
        battle_guardian_once s (a :: rest) =
          some (("guardian_defeated", a, 0),
                { s with guardian_hp := s.guardian_hp - a }, rest)) ∧
    (0 < s.guardian_hp - a → 10 ≤ b → b ≤ 20 →
        battle_guardian_once s (a :: b :: rest) =
          some (("guardian_retaliates", a, b),
                { s with guardian_hp := s.guardian_hp - a,
                         player_hp := s.player_hp - b }, rest)) := by
  constructor
  · intro hdef
    simp [battle_guardian_once, randint, ha1, ha2, hdef]
  · intro halive hb1 hb2
    simp [battle_guardian_once, randint, ha1, ha2, hb1, hb2]
    omega

/-- Witness for C2: guardianHP 25 with draw 25 is defeat with one draw
consumed; guardianHP 50 with draws [10, 15] is retaliation. -/
theorem battle_guardian_once_spec_witness :
    battle_guardian_once { resetState with guardian_hp := 25 } [25] =
      some (("guardian_defeated", 25, 0),
            { resetState with guardian_hp := 0 }, []) ∧
    battle_guardian_once resetState [10, 15] =
      some (("guardian_retaliates", 10, 15),
            { resetState with guardian_hp := 40, player_hp := 85 }, []) := by
  constructor
  · rw [(battle_guardian_once_spec { resetState with guardian_hp := 25 } 25 15 []
      (by decide) (by decide)).1 (by decide)]
    decide
  · rw [(battle_guardian_once_spec resetState 10 15 [] (by decide) (by decide)).2
      (by decide) (by decide) (by decide)]
    decide

/-- C10: `guardian_hp` is never clamped at zero: with `guardian_hp ≥ 1`
and a playerAttack draw strictly larger, the call still returns
("guardian_defeated", draw, 0) and leaves `guardian_hp` strictly
negative, equal to the old value minus the draw. -/
theorem guardian_hp_goes_negative (s : GameState) (a : Int) (rest : List Int)
    (ha1 : 10 ≤ a) (ha2 : a ≤ 25) (_hg1 : 1 ≤ s.guardian_hp)
    (hg2 : s.guardian_hp < a) :
    battle_guardian_once s (a :: rest) =
      some (("guardian_defeated", a, 0),
            { s with guardian_hp := s.guardian_hp - a }, rest) ∧
    s.guardian_hp - a < 0 := by
  refine ⟨?_, by omega⟩
  simp [battle_guardian_once, randint, ha1, ha2]
  omega

/-- Witness for C10: guardianHP 5 with draw 25 ends at guardianHP −20. -/
theorem guardian_hp_goes_negative_witness :
    battle_guardian_once { resetState with guardian_hp := 5 } [25] =
      some (("guardian_defeated", 25, 0),
            { resetState with guardian_hp := -20 }, []) ∧ (-20 : Int) < 0 := by
  refine ⟨?_, by decide⟩
  rw [(guardian_hp_goes_negative { resetState with guardian_hp := 5 } 25 []
    (by decide) (by decide) (by decide) (by decide)).1]
  decide

/-- C3: `enter_eastern_path` draws the [1, 100] chance first; above 40 it
draws [15, 30] damage, subtracts it from `player_hp` and returns
("trap", damage); otherwise, only when the key is not held, it draws a
[1, 3] roll, granting the key on 1 with ("safe_key_found", 0) and
returning ("safe", 0) unchanged otherwise; with the key held the safe
branch returns ("safe", 0) with no further draw and no state change. -/
theorem enter_eastern_path_spec (s : GameState) (c : Int) (rest : List Int)
    (hc1 : 1 ≤ c) (hc2 : c ≤ 100) :
    (40 < c → ∀ d rest2, 15 ≤ d → d ≤ 30 →
        enter_eastern_path s (c :: d :: rest2) =
          some (("trap", d), { s with player_hp := s.player_hp - d }, rest2)) ∧
    (c ≤ 40 → s.has_key = false → ∀ r rest2, 1 ≤ r → r ≤ 3 →
        (r = 1 →
          enter_eastern_path s (c :: r :: rest2) =
            some (("safe_key_found", 0), { s with has_key := true }, rest2)) ∧
        (r ≠ 1 →
          enter_eastern_path s (c :: r :: rest2) = some (("safe", 0), s, rest2))) ∧
    (c ≤ 40 → s.has_key = true →
        enter_eastern_path s (c :: rest) = some (("safe", 0), s, rest)) := by
  refine ⟨?_, ?_, ?_⟩
  · intro htrap d rest2 hd1 hd2
    have hns : ¬ c ≤ 40 := by omega
    simp [enter_eastern_path, randint, hc1, hc2, htrap, hns, hd1, hd2]
  · intro hsafe hkey r rest2 hr1 hr2
    have hnt : ¬ 40 < c := by omega
    constructor
    · intro hone
      simp [enter_eastern_path, randint, hc1, hc2, hnt, hkey, hr1, hr2, hone]
    · intro hnone
      simp [enter_eastern_path, randint, hc1, hc2, hnt, hkey, hr1, hr2, hnone]
  · intro hsafe hkey
    have hnt : ¬ 40 < c := by omega
    simp [enter_eastern_path, randint, hc1, hc2, hnt, hkey]

/-- Witness for C3: the trap branch on draws [50, 20], the key find on
[40, 1], the safe miss on [40, 2], and the keyed safe case on [40]. -/
theorem enter_eastern_path_spec_witness :
    enter_eastern_path resetState [50, 20] =
      some (("trap", 20), { resetState with player_hp := 80 }, []) ∧
    enter_eastern_path resetState [40, 1] =
      some (("safe_key_found", 0), { resetState with has_key := true }, []) ∧
    enter_eastern_path resetState [40, 2] = some (("safe", 0), resetState, []) ∧
    enter_eastern_path { resetState with has_key := true } [40] =
      some (("safe", 0), { resetState with has_key := true }, []) := by
  refine ⟨?_, ?_, ?_, ?_⟩
  · rw [(enter_eastern_path_spec resetState 50 [] (by decide) (by decide)).1
      (by decide) 20 [] (by decide) (by decide)]
    decide
  · rw [((enter_eastern_path_spec resetState 40 [] (by decide) (by decide)).2.1
      (by decide) (by decide) 1 [] (by decide) (by decide)).1 (by decide)]
  · exact ((enter_eastern_path_spec resetState 40 [] (by decide) (by decide)).2.1
      (by decide) (by decide) 2 [] (by decide) (by decide)).2 (by decide)
  · exact (enter_eastern_path_spec { resetState with has_key := true } 40 []
      (by decide) (by decide)).2.2 (by decide) (by decide)

/-- C4: `use_potion` without a potion returns (false, 0) and leaves the
state untouched; with a potion it draws [20, 40] heal, caps the new HP at
100 (min of sum and 100), clears the potion flag, returns (true, heal),
and changes no other field. -/
theorem use_potion_spec (s : GameState) (draws : List Int) :
    (s.has_potion = false → use_potion s draws = some ((false, 0), s, draws)) ∧
    (s.has_potion = true → ∀ h rest, 20 ≤ h → h ≤ 40 →
        use_potion s (h :: rest) =
          some ((true, h),
                { s with player_hp := min (s.player_hp + h) 100,
                         has_potion := false }, rest)) := by
  constructor
  · intro hnp
    simp [use_potion, hnp]
  · intro hp h rest hh1 hh2
    simp [use_potion, randint, hp, hh1, hh2]
    split <;> omega

/-- Witness for C4: no potion is a no-op; HP 80 with draw 40 caps at 100
and clears the potion. -/
theorem use_potion_spec_witness :
    use_potion { resetState with has_potion := false } [40] =
      some ((false, 0), { resetState with has_potion := false }, [40]) ∧
    use_potion { resetState with player_hp := 80 } [40] =
      some ((true, 40),
            { resetState with player_hp := 100, has_potion := false }, []) := by
  constructor
  · exact (use_potion_spec { resetState with has_potion := false } [40]).1 (by decide)
  · rw [(use_potion_spec { resetState with player_hp := 80 } [40]).2
      (by decide) 40 [] (by decide) (by decide)]
    decide

/-- C5: `enter_western_path` consumes exactly one [1, 4] draw on every
call; it grants the key and returns ("western", true) exactly when the
draw is 1 and the key was not held, and otherwise returns
("western", false) with no state change. -/
theorem enter_western_path_spec (s : GameState) (r : Int) (rest : List Int)
    (hr1 : 1 ≤ r) (hr2 : r ≤ 4) :
    (∃ kf s2, enter_western_path s (r :: rest) = some (("western", kf), s2, rest)) ∧
    (r = 1 → s.has_key = false →
        enter_western_path s (r :: rest) =
          some (("western", true), { s with has_key := true }, rest)) ∧
    (¬ (r = 1 ∧ s.has_key = false) →
        enter_western_path s (r :: rest) = some (("western", false), s, rest)) := by
  refine ⟨?_, ?_, ?_⟩
  · by_cases hfound : r = 1 ∧ s.has_key = false
    · exact ⟨true, { s with has_key := true },
        by simp [enter_western_path, randint, hr1, hr2, hfound]⟩
    · exact ⟨false, s, by simp [enter_western_path, randint, hr1, hr2, hfound]⟩
  · intro hone hkey
    simp [enter_western_path, randint, hr1, hr2, hone, hkey]
  · intro hmiss
    simp [enter_western_path, randint, hr1, hr2, hmiss]

/-- Witness for C5: draw 1 without the key finds it; draw 1 with the key
held still consumes the draw but changes nothing; draw 2 changes
nothing. -/
theorem enter_western_path_spec_witness :
    enter_western_path resetState [1] =
      some (("western", true), { resetState with has_key := true }, []) ∧
    enter_western_path { resetState with has_key := true } [1] =
      some (("western", false), { resetState with has_key := true }, []) ∧
    enter_western_path resetState [2] = some (("western", false), resetState, []) := by
  refine ⟨?_, ?_, ?_⟩
  · rw [(enter_western_path_spec resetState 1 [] (by decide) (by decide)).2.1
      (by decide) (by decide)]
  · exact (enter_western_path_spec { resetState with has_key := true } 1 []
      (by decide) (by decide)).2.2 (by simp)
  · exact (enter_western_path_spec resetState 2 [] (by decide) (by decide)).2.2
      (by simp)

/-- C8: `attempt_sneak` draws the [1, 100] chance; above 70 it returns
(true, 0) with the state unchanged and no second draw; otherwise it draws
[20, 35] damage, subtracts it from `player_hp` and returns
(false, damage). -/
theorem attempt_sneak_spec (s : GameState) (c : Int) (rest : List Int)
    (hc1 : 1 ≤ c) (hc2 : c ≤ 100) :
    (70 < c → attempt_sneak s (c :: rest) = some ((true, 0), s, rest)) ∧
    (c ≤ 70 → ∀ d rest2, 20 ≤ d → d ≤ 35 →
        attempt_sneak s (c :: d :: rest2) =
          some ((false, d), { s with player_hp := s.player_hp - d }, rest2)) := by
  constructor
  · intro hsneak
    simp [attempt_sneak, randint, hc1, hc2, hsneak]
  · intro hfail d rest2 hd1 hd2
    have hns : ¬ 70 < c := by omega
    simp [attempt_sneak, randint, hc1, hc2, hns, hd1, hd2]

/-- Witness for C8: draw 71 succeeds with HP unchanged; draws [70, 25]
fail and cost 25 HP. -/
theorem attempt_sneak_spec_witness :
    attempt_sneak resetState [71] = some ((true, 0), resetState, []) ∧
    attempt_sneak resetState [70, 25] =
      some ((false, 25), { resetState with player_hp := 75 }, []) := by
  constructor
  · exact (attempt_sneak_spec resetState 71 [] (by decide) (by decide)).1 (by decide)
  · rw [(attempt_sneak_spec resetState 70 [] (by decide) (by decide)).2
      (by decide) 25 [] (by decide) (by decide)]
    decide

theorem use_potion_game_over_eq (s : GameState) (draws : List Int)
    (out : Bool × Int) (s2 : GameState) (rest : List Int)
    (h : use_potion s draws = some (out, s2, rest)) :
    s2.game_over = s.game_over := by
  unfold use_potion randint at h
  repeat' split at h
  all_goals try simp only [Option.some.injEq, Prod.mk.injEq] at h
  repeat' split at h
  all_goals aesop

theorem enter_eastern_path_game_over_eq (s : GameState) (draws : List Int)
    (out : String × Int) (s2 : GameState) (rest : List Int)
    (h : enter_eastern_path s draws = some (out, s2, rest)) :
    s2.game_over = s.game_over := by
  unfold enter_eastern_path randint at h
  repeat' split at h
  all_goals try simp only [Option.some.injEq, Prod.mk.injEq] at h
  all_goals aesop

theorem investigate_cave_game_over_eq (s : GameState) :
    (investigate_cave s).2.game_over = s.game_over := by
  unfold investigate_cave
  repeat' split
  all_goals simp_all

theorem enter_western_path_game_over_eq (s : GameState) (draws : List Int)
    (out : String × Bool) (s2 : GameState) (rest : List Int)
    (h : enter_western_path s draws = some (out, s2, rest)) :
    s2.game_over = s.game_over := by
  unfold enter_western_path randint at h
  repeat' split at h
  all_goals try simp only [Option.some.injEq, Prod.mk.injEq] at h
  all_goals aesop

theorem drink_from_stream_game_over_eq (s : GameState) (draws : List Int)
    (out : Int) (s2 : GameState) (rest : List Int)
    (h : drink_from_stream s draws = some (out, s2, rest)) :
    s2.game_over = s.game_over := by
  unfold drink_from_stream randint at h
  repeat' split at h
  all_goals try simp only [Option.some.injEq, Prod.mk.injEq] at h
  all_goals aesop

theorem battle_guardian_once_game_over_eq (s : GameState) (draws : List Int)
    (out : String × Int × Int) (s2 : GameState) (rest : List Int)
    (h : battle_guardian_once s draws = some (out, s2, rest)) :
    s2.game_over = s.game_over := by
  unfold battle_guardian_once randint at h
  repeat' split at h
  all_goals try simp only [Option.some.injEq, Prod.mk.injEq] at h
  repeat' split at h
  all_goals aesop

theorem attempt_sneak_game_over_eq (s : GameState) (draws : List Int)
    (out : Bool × Int) (s2 : GameState) (rest : List Int)
    (h : attempt_sneak s draws = some (out, s2, rest)) :
    s2.game_over = s.game_over := by
  unfold attempt_sneak randint at h
  repeat' split at h
  all_goals try simp only [Option.some.injEq, Prod.mk.injEq] at h
  all_goals aesop

theorem death_check_game_over_mono (s : GameState) (hg : s.game_over = true) :
    (death_check s).game_over = true := by
  unfold death_check
  split <;> simp_all

theorem battle_round_game_over_mono (choice : String) (s : GameState)
    (draws : List Int) (s2 : GameState) (rest : List Int)
    (h : battle_round choice s draws = some (s2, rest))
    (hg : s.game_over = true) : s2.game_over = true := by
  unfold battle_round at h
  split at h
  · cases hb : battle_guardian_once s draws with
    | none => rw [hb] at h; exact absurd h (by simp)
    | some v =>
      obtain ⟨⟨res, pa, ga⟩, s1, rest1⟩ := v
      have h1 : s1.game_over = true :=
        (battle_guardian_once_game_over_eq s draws (res, pa, ga) s1 rest1 hb).trans hg
      rw [hb] at h
      dsimp only at h
      split at h
      · simp only [Option.some.injEq, Prod.mk.injEq] at h
        simp [← h.1]
      · simp only [Option.some.injEq, Prod.mk.injEq] at h
        rw [← h.1]
        exact death_check_game_over_mono s1 h1
  · split at h
    · cases hb : attempt_sneak s draws with
      | none => rw [hb] at h; exact absurd h (by simp)
      | some v =>
        obtain ⟨⟨suc, dmg⟩, s1, rest1⟩ := v
        have h1 : s1.game_over = true :=
          (attempt_sneak_game_over_eq s draws (suc, dmg) s1 rest1 hb).trans hg
        rw [hb] at h
        dsimp only at h
        split at h
        · simp only [Option.some.injEq, Prod.mk.injEq] at h
          simp [← h.1]
        · simp only [Option.some.injEq, Prod.mk.injEq] at h
          rw [← h.1]
          exact death_check_game_over_mono s1 h1
    · split at h
      · split at h
        · cases hb : use_potion s draws with
          | none => rw [hb] at h; exact absurd h (by simp)
          | some v =>
            obtain ⟨out, s1, rest1⟩ := v
            have h1 : s1.game_over = true :=
              (use_potion_game_over_eq s draws out s1 rest1 hb).trans hg
            rw [hb] at h
            dsimp only at h
            simp only [Option.some.injEq, Prod.mk.injEq] at h
            rw [← h.1]
            exact death_check_game_over_mono s1 h1
        · simp only [Option.some.injEq, Prod.mk.injEq] at h
          rw [← h.1]
          exact death_check_game_over_mono s hg
      · cases hr : randint 5 15 draws with
        | none => rw [hr] at h; exact absurd h (by simp)
        | some v =>
          obtain ⟨d, rest1⟩ := v
          rw [hr] at h
          dsimp only at h
          simp only [Option.some.injEq, Prod.mk.injEq] at h
          rw [← h.1]
          exact death_check_game_over_mono _ (by simp [hg])

/-- C1: `game_over` starts false after `reset`; the `run_cli` battle loop
sets it true when `battle_guardian_once` reports "guardian_defeated" and
when `attempt_sneak` succeeds; no engine operation changes `game_over`
and a battle round never clears it, so once true it stays true until an
explicit `reset`. -/
theorem game_over_lifecycle :
    (∀ s, (reset s).game_over = false) ∧
    (∀ s draws pa ga s1 rest,
        battle_guardian_once s draws = some (("guardian_defeated", pa, ga), s1, rest) →
        battle_round "1" s draws = some ({ s1 with game_over := true }, rest)) ∧
    (∀ s draws dmg s1 rest,
        attempt_sneak s draws = some ((true, dmg), s1, rest) →
        battle_round "2" s draws = some ({ s1 with game_over := true }, rest)) ∧
    (∀ choice s draws s2 rest, battle_round choice s draws = some (s2, rest) →
        s.game_over = true → s2.game_over = true) ∧
    (∀ s draws out s2 rest, use_potion s draws = some (out, s2, rest) →
        s2.game_over = s.game_over) ∧
    (∀ s draws out s2 rest, enter_eastern_path s draws = some (out, s2, rest) →
        s2.game_over = s.game_over) ∧
    (∀ s, (investigate_cave s).2.game_over = s.game_over) ∧
    (∀ s draws out s2 rest, enter_western_path s draws = some (out, s2, rest) →
        s2.game_over = s.game_over) ∧
    (∀ s draws out s2 rest, drink_from_stream s draws = some (out, s2, rest) →
        s2.game_over = s.game_over) ∧
    (∀ s draws out s2 rest, battle_guardian_once s draws = some (out, s2, rest) →
        s2.game_over = s.game_over) ∧
    (∀ s draws out s2 rest, attempt_sneak s draws = some (out, s2, rest) →
        s2.game_over = s.game_over) := by
  refine ⟨fun s => rfl, ?_, ?_, battle_round_game_over_mono,
    use_potion_game_over_eq, enter_eastern_path_game_over_eq,
    investigate_cave_game_over_eq, enter_western_path_game_over_eq,
    drink_from_stream_game_over_eq, battle_guardian_once_game_over_eq,
    attempt_sneak_game_over_eq⟩
  · intro s draws pa ga s1 rest h
    simp [battle_round, h]
  · intro s draws dmg s1 rest h
    simp [battle_round, h]

/-- Witness for C1: a reset state has `game_over` false; a defeating
attack and a successful sneak each set it true; a potion round in a
finished session keeps it true; a potion use alone leaves it false. -/
theorem game_over_lifecycle_witness :
    (reset { resetState with game_over := true }).game_over = false ∧
    battle_round "1" { resetState with guardian_hp := 10 } [25] =
      some ({ resetState with guardian_hp := -15, game_over := true }, []) ∧
    battle_round "2" resetState [71] =
      some ({ resetState with game_over := true }, []) ∧
    ({ resetState with game_over := true } : GameState).game_over = true ∧
    use_potion { resetState with player_hp := 50 } [30] =
      some ((true, 30),
            { resetState with player_hp := 80, has_potion := false }, []) := by
  refine ⟨game_over_lifecycle.1 { resetState with game_over := true },
    ?_, ?_, by decide, by decide⟩
  · rw [game_over_lifecycle.2.1 { resetState with guardian_hp := 10 } [25] 25 0
      { resetState with guardian_hp := -15 } [] (by decide)]
  · rw [game_over_lifecycle.2.2.1 resetState [71] 0 resetState [] (by decide)]

end CodexAdventure
